import Mathlib

/-!
# Verification of the `idc_index` query / state-management core

Shallow embedding of `src/idc_index/client.py` (class `IDCClient`) and proofs
about the claims of the specification.

Modelling conventions:
* A pandas `DataFrame` is a column list plus rows of association lists from
  column name to cell value (`DF`).  Cell values are text or numbers; numbers
  (the `series_size_MB` column, cast with `astype(float)`) are modelled as
  rationals, the idealisation of IEEE floats for the sums at issue.
* Python exceptions are values of `PyErr`; a method that can raise returns an
  `Except PyErr` result *paired with the final object state*, because attribute
  assignments performed before a raise persist on the Python object.
* Python object attributes exist only once assigned.  `IDCClient` methods
  assign `self.data`, `self.collection_summary` and `self.s5cmd_path`; the
  attribute `self.index` is *read* (client.py lines 49 and 139) but never
  assigned anywhere in the file, so those reads raise `AttributeError`.  Each
  attribute is an `Option` field of `ClientState`, `none` meaning "not
  assigned"; no operation of the file ever sets the `index` field.
* The filesystem / network / platform environment of `reset`,
  `_get_s5cmd_path` and the constructor is a `World` record threaded through
  the operations.
-/

namespace IdcIndex

/-- Decidable equality for `Except` results, so that concrete runs can be
checked by `decide`. -/
instance {ε α : Type} [DecidableEq ε] [DecidableEq α] : DecidableEq (Except ε α) :=
  fun x y =>
    match x, y with
    | .ok a, .ok b =>
      if h : a = b then .isTrue (by rw [h])
      else .isFalse (by intro hh; cases hh; exact h rfl)
    | .error a, .error b =>
      if h : a = b then .isTrue (by rw [h])
      else .isFalse (by intro hh; cases hh; exact h rfl)
    | .ok _, .error _ => .isFalse (by intro hh; cases hh)
    | .error _, .ok _ => .isFalse (by intro hh; cases hh)

/-- A cell of a pandas dataframe: a text value or a numeric value
(floating point in the source, modelled as `ℚ`). -/
inductive Value where
  | vstr : String → Value
  | vnum : ℚ → Value
deriving DecidableEq

/-- One dataframe row: an association list from column name to cell value. -/
abbrev Row := List (String × Value)

/-- A pandas dataframe: the column schema and the rows (in order). -/
structure DF where
  cols : List String
  rows : List Row
deriving DecidableEq

/-- Cell access by column name (first binding wins, as column names are
unique in a dataframe). -/
def lookupCell (r : Row) (c : String) : Option Value := List.lookup c r

/-- Python exception values distinguished by the embedding. -/
inductive PyErr where
  /-- reading an attribute that was never assigned -/
  | attributeError : PyErr
  /-- a failed `assert` with its message -/
  | assertionError : String → PyErr
  /-- pandas `KeyError` for a missing column -/
  | keyError : String → PyErr
  /-- pandas `TypeError` (e.g. summing non-numeric cells) -/
  | typeError : PyErr
  /-- `ValueError` (bad float literal, missing s5cmd executable) -/
  | valueError : PyErr
  /-- duckdb: malformed query text -/
  | parserError : PyErr
  /-- duckdb: the query names an unknown column -/
  | binderError : PyErr
deriving DecidableEq

/-- `pd.Series.unique`: the distinct elements in order of first occurrence
(`seen` accumulates the elements already emitted). -/
def uniqueFirstAux (seen : List Value) : List Value → List Value
  | [] => []
  | v :: vs =>
    if v ∈ seen then uniqueFirstAux seen vs
    else v :: uniqueFirstAux (v :: seen) vs

/-- One group of the `groupby("collection_id").agg(...)` result of
client.py lines 49–51. -/
structure SummaryRow where
  /-- the group key, the row's `collection_id` cell -/
  collection_id : Value
  /-- `pd.Series.unique` over the group's `Modality` cells -/
  modalities : List Value
  /-- `"sum"` over the group's `series_size_MB` cells -/
  series_size_MB : ℚ
deriving DecidableEq

/-- The derived per-collection summary (`self.collection_summary`). -/
abbrev Summary := List SummaryRow

/-- The `collection_id` cell of a row (grouping key). -/
def keyOf (r : Row) : Value := (lookupCell r "collection_id").getD (Value.vstr "")

/-- The `Modality` cell of a row. -/
def modalityOf (r : Row) : Value := (lookupCell r "Modality").getD (Value.vstr "")

/-- Sum the `series_size_MB` cells of the rows; a non-numeric cell makes the
pandas aggregation fail with a `TypeError`. -/
def sumSizes : List Row → Except PyErr ℚ
  | [] => .ok 0
  | r :: rs =>
    match lookupCell r "series_size_MB" with
    | some (Value.vnum q) =>
      match sumSizes rs with
      | .ok acc => .ok (q + acc)
      | .error e => .error e
    | _ => .error .typeError

/-- Build the summary rows for the given list of group keys. -/
def buildSummary (df : DF) : List Value → Except PyErr Summary
  | [] => .ok []
  | k :: ks =>
    let grp := df.rows.filter (fun r => keyOf r = k)
    match sumSizes grp with
    | .error e => .error e
    | .ok total =>
      match buildSummary df ks with
      | .error e => .error e
      | .ok rest =>
        .ok ({ collection_id := k
               modalities := uniqueFirstAux [] (grp.map modalityOf)
               series_size_MB := total } :: rest)

/-- client.py lines 49–51:
`df.groupby("collection_id").agg({"Modality": pd.Series.unique, "series_size_MB": "sum"})`.
Groups the rows on `collection_id` (keys in order of first occurrence),
collects the unique `Modality` values and sums `series_size_MB` per group;
a missing column raises a `KeyError`. -/
def groupbyAgg (df : DF) : Except PyErr Summary :=
  if "collection_id" ∉ df.cols then .error (.keyError "collection_id")
  else if "Modality" ∉ df.cols then .error (.keyError "Modality")
  else if "series_size_MB" ∉ df.cols then .error (.keyError "series_size_MB")
  else buildSummary df (uniqueFirstAux [] (df.rows.map keyOf))

/-- The attribute state of an `IDCClient` object.  A field is `none` while the
attribute has not been assigned; reading such an attribute raises
`AttributeError`.  No code path in client.py ever assigns `index`. -/
structure ClientState where
  index : Option DF := none
  data : Option DF := none
  collection_summary : Option Summary := none
  s5cmd_path : Option String := none
deriving DecidableEq

/-- A Python value that call sites pass as the `data` argument: client.py
passes both dataframes (`sql`, `reset`) and, in `get`, the `IDCClient`
returned by `self.sql` — the dynamic `isinstance` check in `_setDataStore`
tells them apart at run time. -/
inductive Datum where
  | dataframe : DF → Datum
  | client : ClientState → Datum
deriving DecidableEq

/-- client.py lines 42–51, `IDCClient._setDataStore(self, data)`:
asserts `data` is a dataframe, assigns `self.data = data`, then recomputes
`self.collection_summary` from `self.index` — an attribute that is never
assigned, so the read raises `AttributeError` *after* `self.data` was set. -/
def _setDataStore (s : ClientState) (data : Datum) : ClientState × Except PyErr Unit :=
  match data with
  | .client _ => (s, .error (.assertionError "data must be a pandas dataframe"))
  | .dataframe df =>
    let s1 : ClientState := { s with data := some df }
    match s1.index with
    | none => (s1, .error .attributeError)
    | some idx =>
      match groupbyAgg idx with
      | .error e => (s1, .error e)
      | .ok sm => ({ s1 with collection_summary := some sm }, .ok ())

/-! ## The embedded analytic query engine (duckdb)

`sql` hands the query text to `duckdb.query`, which resolves the table name
`index` to the local dataframe bound at client.py line 139.  The engine is an
external library; it is modelled here on exactly the query language this
client emits — `SELECT * FROM index`, optionally followed by
`WHERE col='v' AND col='v' AND ...` — with whitespace-insensitive parsing.
Any other query text is a parse error (the engine's error propagates
unchanged to the caller, §4.3 of the spec). -/

/-- The apostrophe delimiting SQL string literals. -/
def quoteChar : Char := Char.ofNat 39

/-- Split query text into whitespace-separated tokens (`cur` holds the
reversed characters of the token being read). -/
def tokenizeAux (cur : List Char) : List Char → List String
  | [] => if cur.isEmpty then [] else [String.mk cur.reverse]
  | c :: rest =>
    if c.isWhitespace then
      if cur.isEmpty then tokenizeAux [] rest
      else String.mk cur.reverse :: tokenizeAux [] rest
    else tokenizeAux (c :: cur) rest

/-- Whitespace tokenization of query text. -/
def tokenize (s : String) : List String := tokenizeAux [] s.data

/-- Split a token at the first occurrence of `='` into the characters before
and after it. -/
def splitEqQuote : List Char → Option (List Char × List Char)
  | [] => none
  | c :: rest =>
    if c = '=' then
      match rest with
      | q :: rest2 =>
        if q = quoteChar then some ([], rest2)
        else (splitEqQuote rest).map (fun p => (c :: p.1, p.2))
      | [] => none
    else (splitEqQuote rest).map (fun p => (c :: p.1, p.2))

/-- Parse one equality conjunct of the form `col='value'` into
`(col, value)`; tokens with stray quotes or equals signs are rejected
(modelled as malformed). -/
def parseConjunct (t : String) : Option (String × String) :=
  match splitEqQuote t.data with
  | none => none
  | some (colCs, rest) =>
    if colCs = [] then none
    else if colCs.contains quoteChar || colCs.contains '=' then none
    else
      match rest.getLast? with
      | some c =>
        if c = quoteChar then
          let valCs := rest.dropLast
          if valCs.contains quoteChar then none else some (String.mk colCs, String.mk valCs)
        else none
      | none => none

/-- Parse the token list after `WHERE`: conjuncts joined by `AND`. -/
def parseConjuncts : List String → Option (List (String × String))
  | [] => none
  | [t] => (parseConjunct t).map (fun p => [p])
  | t :: u :: rest =>
    if u = "AND" then
      match parseConjunct t, parseConjuncts rest with
      | some p, some ps => some (p :: ps)
      | _, _ => none
    else none

/-- Keep the rows whose cell in column `c` equals the text `v`; an unknown
column is a binder error from the engine. -/
def applyFilter (df : DF) (c v : String) : Except PyErr DF :=
  if c ∈ df.cols then
    .ok { df with rows := df.rows.filter (fun r => lookupCell r c = some (Value.vstr v)) }
  else .error .binderError

/-- Apply the equality conjuncts left to right (conjunction). -/
def applyFilters : DF → List (String × String) → Except PyErr DF
  | df, [] => .ok df
  | df, (c, v) :: rest =>
    match applyFilter df c v with
    | .ok df1 => applyFilters df1 rest
    | .error e => .error e

/-- `duckdb.query(sql_query)` with the table name `index` bound to the given
dataframe (client.py line 142). -/
def duckdbQuery (sql_query : String) (index : DF) : Except PyErr DF :=
  match tokenize sql_query with
  | ["SELECT", "*", "FROM", "index"] => .ok index
  | "SELECT" :: "*" :: "FROM" :: "index" :: "WHERE" :: rest =>
    match parseConjuncts rest with
    | some cs => applyFilters index cs
    | none => .error .parserError
  | _ => .error .parserError

/-! ## The environment: cache file, remote catalog, platform, s5cmd -/

/-- The raw content of a CSV catalog as `pd.read_csv(..., dtype=str)` sees
it: text cells, `none` for a missing value (pandas `NaN`). -/
structure RawCSV where
  cols : List String
  rows : List (List (String × Option String))
deriving DecidableEq

/-- The parts of the filesystem / network / platform environment the client
touches.  `downloads` counts `urllib.request.urlretrieve` calls. -/
structure World where
  platform : String
  cacheExists : Bool
  cacheContent : RawCSV
  remoteContent : RawCSV
  downloads : Nat
  s5cmdBundled : Bool
  s5cmdOnPath : Bool
deriving DecidableEq

/-- client.py lines 53–79, `IDCClient._get_s5cmd_path`: prefer the bundled,
platform-named binary; fall back to probing `s5cmd` on the execution path
(`subprocess.run` raises only when the binary is absent); otherwise log
fatal and raise `ValueError`. -/
def _get_s5cmd_path (w : World) : Except PyErr String :=
  let s5cmdPath := if w.platform = "Windows" then "s5cmd.exe" else "s5cmd"
  if w.s5cmdBundled then .ok s5cmdPath
  else if w.s5cmdOnPath then .ok "s5cmd"
  else .error .valueError

/-! ## Catalog normalization (client.py lines 112–114) -/

/-- Accumulating decimal parser: `none` on a non-digit. -/
def digitsToNatAux (acc : Nat) : List Char → Option Nat
  | [] => some acc
  | c :: rest =>
    if c.isDigit then digitsToNatAux (acc * 10 + (c.toNat - 48)) rest else none

/-- Split at the first decimal point: integer part and, when a point is
present, the characters after it. -/
def splitDot : List Char → List Char × Option (List Char)
  | [] => ([], none)
  | c :: rest =>
    if c = '.' then ([], some rest)
    else
      let p := splitDot rest
      (c :: p.1, p.2)

/-- Python `float(s)` on the decimal literals occurring in the catalog:
optional sign, digits with at most one decimal point, at least one digit;
anything else (in particular the empty string) is a `ValueError`, modelled
as `none`. -/
def parseFloat (s : String) : Option ℚ :=
  let cs := s.data
  let signBody : Bool × List Char :=
    match cs with
    | c :: rest =>
      if c = '-' then (true, rest) else if c = '+' then (false, rest) else (false, cs)
    | [] => (false, [])
  let body := signBody.2
  let intCs := (splitDot body).1
  let fracCs := ((splitDot body).2).getD []
  if body = [] then none
  else if intCs = [] ∧ fracCs = [] then none
  else if fracCs.contains '.' then none
  else
    match digitsToNatAux 0 intCs, digitsToNatAux 0 fracCs with
    | some ip, some fp =>
      let den := 10 ^ fracCs.length
      let n : Int := (ip * den + fp : Nat)
      some (mkRat (if signBody.1 then -n else n) den)
    | _, _ => none

/-- `data.astype(str).replace("nan", "")` on one cell: a missing value reads
as the string `"nan"`, which the replace step turns into empty text. -/
def normCell : Option String → String
  | none => ""
  | some s => if s = "nan" then "" else s

/-- Normalize one row: every column as text, except `series_size_MB` cast to
floating point (`ValueError` on an unparsable literal). -/
def convRow : List (String × Option String) → Except PyErr Row
  | [] => .ok []
  | (c, v) :: rest =>
    let sv := normCell v
    let cellE : Except PyErr Value :=
      if c = "series_size_MB" then
        match parseFloat sv with
        | some q => .ok (Value.vnum q)
        | none => .error .valueError
      else .ok (Value.vstr sv)
    match cellE, convRow rest with
    | .ok cv, .ok r => .ok ((c, cv) :: r)
    | .error e, _ => .error e
    | _, .error e => .error e

/-- Normalize all rows. -/
def convRows : List (List (String × Option String)) → Except PyErr (List Row)
  | [] => .ok []
  | r :: rest =>
    match convRow r, convRows rest with
    | .ok r1, .ok rs => .ok (r1 :: rs)
    | .error e, _ => .error e
    | _, .error e => .error e

/-- client.py lines 112–114: read the archive with all columns as text,
replace the `"nan"` sentinel by empty text, cast `series_size_MB` to
floating point (`KeyError` when that column is absent). -/
def normalizeDF (raw : RawCSV) : Except PyErr DF :=
  if "series_size_MB" ∉ raw.cols then .error (.keyError "series_size_MB")
  else
    match convRows raw.rows with
    | .ok rs => .ok { cols := raw.cols, rows := rs }
    | .error e => .error e

/-- client.py lines 81–117, `IDCClient.reset(self, refresh)`: download the
archive to the cache when the cache is absent or `refresh` is set, then read
and normalize the cache content and install it via `_setDataStore`. -/
def reset (w : World) (s : ClientState) (refresh : Bool) :
    World × ClientState × Except PyErr Unit :=
  let w1 :=
    if !w.cacheExists || refresh then
      { w with cacheExists := true, cacheContent := w.remoteContent,
               downloads := w.downloads + 1 }
    else w
  match normalizeDF w1.cacheContent with
  | .error e => (w1, s, .error e)
  | .ok df =>
    let p := _setDataStore s (.dataframe df)
    (w1, p.1, p.2)

/-! ## Constructor, `sql`, `get`, `raw` -/

/-- client.py lines 26–38, `IDCClient.__init__(self, data=None)`: start with
no attributes, load the data store (`reset()` when `data` is `None`, else
`_setDataStore(data)`), then resolve the s5cmd path.  A raise at any step
aborts construction (no object is returned). -/
def initIDCClient (w : World) (data : Option Datum) : World × Except PyErr ClientState :=
  let s0 : ClientState := {}
  let step : World × ClientState × Except PyErr Unit :=
    match data with
    | none => reset w s0 false
    | some d =>
      let p := _setDataStore s0 d
      (w, p.1, p.2)
  match step with
  | (w1, _, .error e) => (w1, .error e)
  | (w1, s1, .ok _) =>
    match _get_s5cmd_path w1 with
    | .error e => (w1, .error e)
    | .ok p => (w1, .ok { s1 with s5cmd_path := some p })

/-- client.py lines 121–149, `IDCClient.sql(self, sql_query, context=None,
in_place=False)`: bind the local `index` to `self.index` (a read of a
never-assigned attribute — `AttributeError`) or to the given context, run the
query, then either install the result in place via `_setDataStore` and
return `self`, or construct and return `IDCClient(data=result)`.
Result: final world, final state of `self`, and the returned client or the
raised exception. -/
def sql (w : World) (s : ClientState) (sql_query : String) (context : Option DF)
    (in_place : Bool) : World × ClientState × Except PyErr ClientState :=
  let idxE : Except PyErr DF :=
    match context with
    | some c => .ok c
    | none =>
      match s.index with
      | some i => .ok i
      | none => .error .attributeError
  match idxE with
  | .error e => (w, s, .error e)
  | .ok index =>
    match duckdbQuery sql_query index with
    | .error e => (w, s, .error e)
    | .ok data =>
      if in_place then
        let p := _setDataStore s (.dataframe data)
        match p.2 with
        | .error e => (w, p.1, .error e)
        | .ok _ => (w, p.1, .ok p.1)
      else
        match initIDCClient w (some (.dataframe data)) with
        | (w1, .error e) => (w1, s, .error e)
        | (w1, .ok c) => (w1, s, .ok c)

/-- The contents of the f-string at client.py lines 175–180. -/
def baseQuery : String :=
  "\n            SELECT\n            *\n            FROM\n                index\n        "

/-- client.py lines 183–195: the equality conjuncts for the supplied
(non-`None`) filter arguments, in the fixed order of the code. -/
def whereClause (collectionId patientId studyInstanceUID seriesInstanceUID :
    Option String) : List String :=
  (match collectionId with
   | some v => ["collection_id='" ++ v ++ "'"]
   | none => []) ++
  (match patientId with
   | some v => ["PatientID='" ++ v ++ "'"]
   | none => []) ++
  (match studyInstanceUID with
   | some v => ["StudyInstanceUID='" ++ v ++ "'"]
   | none => []) ++
  (match seriesInstanceUID with
   | some v => ["SeriesInstanceUID='" ++ v ++ "'"]
   | none => [])

/-- client.py lines 151–209, `IDCClient.get`: assert at least one argument is
not `None`, build the `SELECT * FROM index WHERE ...` text, run
`subset = self.sql(query)` (copy semantics, no context), then install or wrap
`subset` — which is an `IDCClient`, not a dataframe — depending on
`in_place`. -/
def get (w : World) (s : ClientState)
    (collectionId patientId studyInstanceUID seriesInstanceUID : Option String)
    (in_place : Bool) : World × ClientState × Except PyErr ClientState :=
  if collectionId.isSome || patientId.isSome || studyInstanceUID.isSome
      || seriesInstanceUID.isSome then
    let where_clause :=
      whereClause collectionId patientId studyInstanceUID seriesInstanceUID
    let query :=
      if where_clause.length > 0 then
        baseQuery ++ "WHERE " ++ String.intercalate " AND " where_clause
      else baseQuery
    match sql w s query none false with
    | (w1, s1, .error e) => (w1, s1, .error e)
    | (w1, s1, .ok subset) =>
      if in_place then
        let p := _setDataStore s1 (.client subset)
        match p.2 with
        | .error e => (w1, p.1, .error e)
        | .ok _ => (w1, p.1, .ok p.1)
      else
        match initIDCClient w1 (some (.client subset)) with
        | (w2, .error e) => (w2, s1, .error e)
        | (w2, .ok c) => (w2, s1, .ok c)
  else (w, s, .error (.assertionError "at least one argument must be specified"))

/-- client.py lines 226–229, `IDCClient.raw(self)`: `return self.data` — the
stored table itself, with no state change. -/
def raw (s : ClientState) : Except PyErr DF × ClientState :=
  match s.data with
  | some d => (.ok d, s)
  | none => (.error .attributeError, s)

/-! ## Concrete fixtures for witnesses and counterexamples -/

/-- The identifier / descriptive / size columns of the catalog. -/
def idCols : List String :=
  ["collection_id", "PatientID", "StudyInstanceUID", "SeriesInstanceUID",
   "Modality", "series_size_MB"]

/-- A catalog row with the six standard columns. -/
def mkRow (cid pid study series modality : String) (size : ℚ) : Row :=
  [("collection_id", Value.vstr cid), ("PatientID", Value.vstr pid),
   ("StudyInstanceUID", Value.vstr study), ("SeriesInstanceUID", Value.vstr series),
   ("Modality", Value.vstr modality), ("series_size_MB", Value.vnum size)]

/-- One-row table, collection `A`. -/
def tblA : DF := ⟨idCols, [mkRow "A" "P1" "S1" "U1" "CT" 10]⟩

/-- One-row table, collection `B` — distinct from `tblA`. -/
def tblB : DF := ⟨idCols, [mkRow "B" "P2" "S2" "U2" "MR" 5]⟩

/-- Two-row table for the filter-narrowing scenario of C7. -/
def tblC : DF :=
  ⟨idCols, [mkRow "C1" "P1" "S3" "U3" "CT" 7, mkRow "C1" "P2" "S4" "U4" "MR" 2]⟩

/-- The summary matching `tblA`. -/
def summaryA : Summary :=
  [{ collection_id := Value.vstr "A", modalities := [Value.vstr "CT"],
     series_size_MB := 10 }]

/-- A handle state with its attributes as a completed construction would
leave them: table and matching summary assigned, s5cmd path resolved, and
the `index` attribute — which no code path assigns — absent. -/
def readyStateA : ClientState :=
  { index := none, data := some tblA, collection_summary := some summaryA,
    s5cmd_path := some "s5cmd" }

/-- A catalog with no rows. -/
def emptyCSV : RawCSV := ⟨idCols, []⟩

/-- An environment with the bundled s5cmd present. -/
def worldWithS5 : World :=
  { platform := "Linux", cacheExists := true, cacheContent := emptyCSV,
    remoteContent := emptyCSV, downloads := 0, s5cmdBundled := true,
    s5cmdOnPath := false }

/-- An environment with no s5cmd anywhere (neither bundled nor on the
execution path). -/
def worldNoS5 : World :=
  { worldWithS5 with s5cmdBundled := false, s5cmdOnPath := false }

/-- Raw catalog content with a missing value and a decimal size literal. -/
def sampleCSV : RawCSV :=
  ⟨idCols,
   [[("collection_id", some "A"), ("PatientID", none),
     ("StudyInstanceUID", some "S1"), ("SeriesInstanceUID", some "U1"),
     ("Modality", some "CT"), ("series_size_MB", some "10.5")]]⟩

/-- `sampleCSV` after the normalization of client.py lines 112–114. -/
def sampleNormalized : DF :=
  ⟨idCols,
   [[("collection_id", Value.vstr "A"), ("PatientID", Value.vstr ""),
     ("StudyInstanceUID", Value.vstr "S1"), ("SeriesInstanceUID", Value.vstr "U1"),
     ("Modality", Value.vstr "CT"), ("series_size_MB", Value.vnum (mkRat 21 2))]]⟩

/-- The summary matching `tblC`. -/
def summaryC : Summary :=
  [{ collection_id := Value.vstr "C1", modalities := [Value.vstr "CT", Value.vstr "MR"],
     series_size_MB := 9 }]

/-- A handle state holding the two-row table `tblC` and its summary. -/
def readyStateC : ClientState :=
  { index := none, data := some tblC, collection_summary := some summaryC,
    s5cmd_path := some "s5cmd" }

/-- A table exposing none of the required columns. -/
def tblBad : DF := ⟨["foo"], [[("foo", Value.vstr "x")]]⟩

/-! ## Shared lemmas -/

/-- `sql` called without a context table binds `index` to `self.index`, a
never-assigned attribute, so it raises `AttributeError` without touching the
handle or the environment. -/
theorem sql_no_context_raises (w : World) (s : ClientState) (q : String)
    (ip : Bool) (h : s.index = none) :
    sql w s q none ip = (w, s, .error .attributeError) := by
  simp [sql, h]

/-- `_setDataStore` on a dataframe, for a state whose `index` attribute is
unset (as on every state the code can build): the table is installed in
`self.data` and then the read of `self.index` raises `AttributeError`. -/
theorem setDataStore_no_index (s : ClientState) (df : DF) (h : s.index = none) :
    _setDataStore s (.dataframe df)
      = ({ s with data := some df }, .error .attributeError) := by
  simp [_setDataStore, h]

/-- Whatever else happens inside `_setDataStore`, the supplied dataframe is
assigned to `self.data` first. -/
theorem setDataStore_data (s : ClientState) (df : DF) :
    (_setDataStore s (.dataframe df)).1.data = some df := by
  unfold _setDataStore
  cases hi : s.index with
  | none => simp [hi]
  | some idx => cases hg : groupbyAgg idx <;> simp [hi, hg]

/-- A `_setDataStore` call on a dataframe that raises leaves
`self.collection_summary` exactly as it was before the call. -/
theorem setDataStore_summary_stable (s : ClientState) (df : DF)
    (e : PyErr) (h : (_setDataStore s (.dataframe df)).2 = .error e) :
    (_setDataStore s (.dataframe df)).1.collection_summary
      = s.collection_summary := by
  unfold _setDataStore at h ⊢
  cases hi : s.index with
  | none => simp [hi]
  | some idx =>
    cases hg : groupbyAgg idx with
    | error e2 => simp [hi, hg]
    | ok sm => simp [hi, hg] at h

/-! ## The claims -/

/-- Claim C1: the claim that `setTable` (`_setDataStore`) recomputes
`CollectionSummary` from the supplied table fails on the code.
`_setDataStore` stores the table in `self.data` but recomputes the summary
from `self.index`, an attribute never assigned anywhere in client.py, so the
read raises `AttributeError` after installing the table: called on a state
holding table `tblA` and its summary with the new table `tblB` (whose only
collection is `B`), the call raises, and the summary afterwards is still the
one of `tblA`, with no entry for collection `B` at all. -/
theorem setDataStore_summary_not_recomputed_from_table :
    (_setDataStore readyStateA (.dataframe tblB)
      = ({ readyStateA with data := some tblB }, .error .attributeError)) ∧
    (_setDataStore readyStateA (.dataframe tblB)).1.collection_summary
      = some summaryA ∧
    summaryA.filter (fun r => r.collection_id = Value.vstr "B") = [] :=
  ⟨by decide, by decide, by decide⟩

/-- Claim C2: the claim that `get` with a filter returns a handle holding exactly
the matching rows fails on the code.  `get` delegates to `self.sql(query)`
with no context, and `sql` binds `index` to `self.index` — an attribute never
assigned — so `get(collectionId="A")` on a handle holding `tblA` raises
`AttributeError` instead of returning a filtered handle (were that read
fixed, `get` would still hand the `IDCClient` returned by `sql` to
`_setDataStore`, which requires a dataframe). -/
theorem get_filter_raises_attributeError :
    get worldWithS5 readyStateA (some "A") none none none false
      = (worldWithS5, readyStateA, .error .attributeError) := by decide

/-- Claim C3: the claim that a copy-semantics call leaves the original handle
unchanged and returns a brand-new handle fails on its second half.  A
`sql` call with a context table and `in_place=False` reaches
`IDCClient(data=result)`, whose constructor calls `_setDataStore` and raises
`AttributeError` reading the never-assigned `index` attribute: the call
raises instead of returning a new handle (the original handle and
environment are indeed left untouched, as the result state shows). -/
theorem sql_copy_raises_before_returning_new_handle :
    sql worldWithS5 readyStateA "SELECT * FROM index" (some tblB) false
      = (worldWithS5, readyStateA, .error .attributeError) := by decide

/-- Claim C7: the claim that filtering by `collectionId="C1"` and then by
`patientId="P1"` yields a subset of filtering by `collectionId="C1"` alone
is about row sets the code never produces: already the first `get` call
raises `AttributeError` (its `sql` delegate reads the never-assigned `index`
attribute), so no filtered row set exists to compare. -/
theorem get_chained_filters_raise_attributeError :
    get worldWithS5 readyStateC (some "C1") none none none false
      = (worldWithS5, readyStateC, .error .attributeError) := by decide

/-- Claim C10: `raw()` returns the handle's current table itself and changes
nothing: for every state whose `data` attribute holds a table, the call
returns exactly that table and the state — table and summary included — is
identical afterwards. -/
theorem raw_returns_current_table_unchanged (s : ClientState) (d : DF)
    (h : s.data = some d) : raw s = (.ok d, s) := by
  simp [raw, h]

/-- Witness for C10 at a concrete Ready-shaped handle. -/
theorem raw_returns_current_table_unchanged_witness :
    readyStateA.data = some tblA ∧ raw readyStateA = (.ok tblA, readyStateA) :=
  ⟨rfl, raw_returns_current_table_unchanged readyStateA tblA rfl⟩

/-- Claim C4, counterexample: the claim says *every* combination of the four
filter arguments in which each argument is empty or absent fails with an
argument error.  The code's check is `is not None`, so an argument supplied
as the *empty string* passes it: `get(collectionId="")` does not raise the
argument-error assertion — it proceeds and raises `AttributeError` instead,
which is a different error. -/
theorem get_all_empty_filters_no_argumentError :
    (get worldWithS5 readyStateA (some "") none none none false
      = (worldWithS5, readyStateA, .error .attributeError)) ∧
    PyErr.attributeError
      ≠ PyErr.assertionError "at least one argument must be specified" :=
  ⟨by decide, by decide⟩

/-- Claim C4, amended: `get` fails with the argument-error assertion exactly when
all four filter arguments are absent (`None`); an argument supplied as the
empty string counts as supplied, and a call with at least one supplied
argument never fails with that argument error. -/
theorem get_argumentError_iff_all_filters_absent (w : World) (s : ClientState)
    (a b c d : Option String) (ip : Bool) (h : s.index = none) :
    (get w s a b c d ip).2.2
        = .error (.assertionError "at least one argument must be specified")
      ↔ a = none ∧ b = none ∧ c = none ∧ d = none := by
  have hs : ∀ q ip2, sql w s q none ip2 = (w, s, .error .attributeError) :=
    fun q ip2 => sql_no_context_raises w s q ip2 h
  cases a <;> cases b <;> cases c <;> cases d <;> simp [get, hs]

/-- Witness for the amended C4 at concrete inputs. -/
theorem get_argumentError_iff_all_filters_absent_witness :
    readyStateA.index = none ∧
    ((get worldWithS5 readyStateA (some "A") none none none false).2.2
        = .error (.assertionError "at least one argument must be specified")
      ↔ some "A" = none ∧ (none : Option String) = none
          ∧ (none : Option String) = none ∧ (none : Option String) = none) :=
  ⟨rfl, get_argumentError_iff_all_filters_absent worldWithS5 readyStateA
    (some "A") none none none false rfl⟩

/-- Claim C5, counterexample: the claim says a failed in-place call leaves the
handle's table and summary as they were.  An in-place `sql` call with a
context table builds the result, *assigns it to `self.data`*, and only then
fails (reading the never-assigned `index` attribute while recomputing the
summary): after the failed call the handle holds the new table `tblB` paired
with the stale summary of `tblA` — the table changed and the table/summary
pairing is broken. -/
theorem sql_inplace_failure_replaces_table :
    (sql worldWithS5 readyStateA "SELECT * FROM index" (some tblB) true
      = (worldWithS5, { readyStateA with data := some tblB },
         .error .attributeError)) ∧
    some tblB ≠ readyStateA.data ∧
    ({ readyStateA with data := some tblB } : ClientState).collection_summary
      = some summaryA :=
  ⟨by decide, by decide, by decide⟩

/-- Claim C5, amended: a failed in-place `sql` call never updates
`CollectionSummary`, and when it fails before the result table is built the
whole handle is unchanged; but when it fails while installing the result
(inside `_setDataStore`), the result table has already replaced
`self.data`, so the table/summary pairing may be broken at that point. -/
theorem sql_inplace_failure_keeps_summary (w : World) (s : ClientState)
    (q : String) (ctx : Option DF) (e : PyErr) (h : s.index = none)
    (hf : (sql w s q ctx true).2.2 = .error e) :
    (sql w s q ctx true).2.1.collection_summary = s.collection_summary ∧
    ((sql w s q ctx true).2.1 = s ∨
      ∃ c d, ctx = some c ∧ duckdbQuery q c = .ok d ∧
        (sql w s q ctx true).2.1 = { s with data := some d }) := by
  cases ctx with
  | none => simp [sql, h]
  | some c =>
    cases hq : duckdbQuery q c with
    | error e2 => simp [sql, hq]
    | ok d =>
      have hset := setDataStore_no_index s d h
      refine ⟨?_, Or.inr ⟨c, d, rfl, hq, ?_⟩⟩ <;> simp [sql, hq, hset]

/-- Witness for the amended C5 at concrete inputs. -/
theorem sql_inplace_failure_keeps_summary_witness :
    (readyStateA.index = none ∧
      (sql worldWithS5 readyStateA "SELECT * FROM index" (some tblB) true).2.2
        = .error .attributeError) ∧
    ((sql worldWithS5 readyStateA "SELECT * FROM index" (some tblB) true).2.1.collection_summary
        = readyStateA.collection_summary ∧
      ((sql worldWithS5 readyStateA "SELECT * FROM index" (some tblB) true).2.1
          = readyStateA ∨
        ∃ c d, (some tblB : Option DF) = some c
          ∧ duckdbQuery "SELECT * FROM index" c = .ok d
          ∧ (sql worldWithS5 readyStateA "SELECT * FROM index" (some tblB) true).2.1
              = { readyStateA with data := some d })) :=
  ⟨⟨rfl, by decide⟩,
   sql_inplace_failure_keeps_summary worldWithS5 readyStateA
     "SELECT * FROM index" (some tblB) .attributeError rfl (by decide)⟩

/-- Claim C8, counterexample: the claim says `setTable` fails on a table lacking a
required column *rather than installing it*.  The code performs no column
validation: it asserts only the dataframe type, installs the table, and then
fails reading the never-assigned `index` attribute — so a table exposing
none of the required columns is already installed as `self.data` when the
call raises. -/
theorem setDataStore_installs_invalid_table :
    (_setDataStore ({} : ClientState) (.dataframe tblBad)
      = ({ ({} : ClientState) with data := some tblBad },
         .error .attributeError)) ∧
    "collection_id" ∉ tblBad.cols ∧ "Modality" ∉ tblBad.cols ∧
    "series_size_MB" ∉ tblBad.cols :=
  ⟨by decide, by decide, by decide, by decide⟩

/-- Claim C8, amended: `setTable` validates only that its argument is a dataframe,
never the columns; it installs any dataframe as canonical first and then
fails (reading the never-assigned `index` attribute), for every input —
whether or not the required columns are present — leaving the table
installed when the failure surfaces. -/
theorem setDataStore_no_validation_installs_then_fails (s : ClientState)
    (df : DF) (h : s.index = none) :
    _setDataStore s (.dataframe df)
      = ({ s with data := some df }, .error .attributeError) :=
  setDataStore_no_index s df h

/-- Witness for the amended C8 at a concrete invalid table. -/
theorem setDataStore_no_validation_installs_then_fails_witness :
    ({} : ClientState).index = none ∧
    _setDataStore ({} : ClientState) (.dataframe tblBad)
      = ({ ({} : ClientState) with data := some tblBad },
         .error .attributeError) :=
  ⟨rfl, setDataStore_no_validation_installs_then_fails {} tblBad rfl⟩

/-- Claim C9, counterexample: the claim says that with no s5cmd reachable, a
copy-semantics call raises the executable-not-found `ValueError`.  In an
environment with neither a bundled s5cmd nor one on the execution path, a
copy-semantics `sql` call raises `AttributeError` — the constructor of the
new handle fails in `_setDataStore` before ever reaching the s5cmd
resolution step. -/
theorem copy_call_without_s5cmd_raises_attributeError :
    (sql worldNoS5 readyStateA "SELECT * FROM index" (some tblB) false
      = (worldNoS5, readyStateA, .error .attributeError)) ∧
    PyErr.attributeError ≠ PyErr.valueError ∧
    worldNoS5.s5cmdBundled = false ∧ worldNoS5.s5cmdOnPath = false :=
  ⟨by decide, by decide, by decide, by decide⟩

/-- Claim C9, amended: a copy-semantics `sql` call does construct its result
through the full constructor, but the constructor raises `AttributeError`
inside `_setDataStore` before reaching the transfer-executable resolution,
in *every* environment — s5cmd present or absent — so the
executable-not-found `ValueError` is never raised from such a call. -/
theorem copy_call_fails_before_s5cmd_resolution (w : World) (s : ClientState)
    (q : String) (c d : DF) (h : duckdbQuery q c = .ok d) :
    sql w s q (some c) false = (w, s, .error .attributeError) := by
  have hset := setDataStore_no_index {} d rfl
  simp [sql, h, initIDCClient, hset]

/-- Witness for the amended C9 in the s5cmd-less environment. -/
theorem copy_call_fails_before_s5cmd_resolution_witness :
    duckdbQuery "SELECT * FROM index" tblB = .ok tblB ∧
    sql worldNoS5 readyStateA "SELECT * FROM index" (some tblB) false
      = (worldNoS5, readyStateA, .error .attributeError) :=
  ⟨by decide, copy_call_fails_before_s5cmd_resolution worldNoS5 readyStateA
    "SELECT * FROM index" tblB tblB (by decide)⟩

/-- Unfolding equation for `reset`: the environment update (download into the
cache when it is absent or a refresh is requested) followed by the
normalize-and-install step. -/
theorem reset_cases (w : World) (s : ClientState) (refresh : Bool) :
    reset w s refresh =
      ((if !w.cacheExists || refresh then
          { w with cacheExists := true, cacheContent := w.remoteContent,
                   downloads := w.downloads + 1 }
        else w),
       match normalizeDF (if !w.cacheExists || refresh then w.remoteContent
          else w.cacheContent) with
       | .error e => (s, Except.error e)
       | .ok df => _setDataStore s (.dataframe df)) := by
  unfold reset
  by_cases hb : (!w.cacheExists || refresh) = true <;> simp only [hb] <;>
    simp <;> (cases hn : normalizeDF _ <;> simp [hn])

/-- The download policy and installation behavior of `reset`, split into the
conjuncts used by claim C6. -/
theorem reset_spec (w : World) (s : ClientState) (refresh : Bool) :
    ((reset w s refresh).1.downloads
        = w.downloads + (if !w.cacheExists || refresh then 1 else 0)) ∧
    ((reset w s refresh).1.cacheContent
        = (if !w.cacheExists || refresh then w.remoteContent else w.cacheContent)) ∧
    (∀ df, normalizeDF (reset w s refresh).1.cacheContent = .ok df →
        (reset w s refresh).2.1.data = some df) ∧
    (∀ e, normalizeDF (reset w s refresh).1.cacheContent = .error e →
        (reset w s refresh).2 = (s, .error e)) := by
  rw [reset_cases]
  by_cases hb : (!w.cacheExists || refresh) = true
  · cases hn : normalizeDF w.remoteContent with
    | ok df => simp [hb, hn, setDataStore_data]
    | error e => simp [hb, hn]
  · cases hn : normalizeDF w.cacheContent with
    | ok df => simp [hb, hn, setDataStore_data]
    | error e => simp [hb, hn]

/-- Claim C6: `reset(refresh=true)` downloads the catalog even when the cache
exists; `reset(refresh=false)` reads the cache without downloading when it
exists and downloads only when absent; in every case the table read from the
resulting cache content is normalized — every column as text, the missing
sentinel replaced by empty text, `series_size_MB` cast to floating point, as
the concrete `sampleCSV` run exhibits — and installed via `setTable`
(a normalization failure propagates and installs nothing). -/
theorem reset_download_policy_and_normalization (w : World) (s : ClientState)
    (refresh : Bool) :
    ((reset w s refresh).1.downloads
        = w.downloads + (if !w.cacheExists || refresh then 1 else 0)) ∧
    ((reset w s refresh).1.cacheContent
        = (if !w.cacheExists || refresh then w.remoteContent else w.cacheContent)) ∧
    (∀ df, normalizeDF (reset w s refresh).1.cacheContent = .ok df →
        (reset w s refresh).2.1.data = some df) ∧
    (∀ e, normalizeDF (reset w s refresh).1.cacheContent = .error e →
        (reset w s refresh).2 = (s, .error e)) ∧
    normalizeDF sampleCSV = .ok sampleNormalized := by
  obtain ⟨h1, h2, h3, h4⟩ := reset_spec w s refresh
  exact ⟨h1, h2, h3, h4, by decide⟩

/-- Witness for C6: with an existing cache and `refresh=true` a download
happens, with `refresh=false` none; the normalized sample table lands in
`self.data`. -/
theorem reset_download_policy_and_normalization_witness :
    ((reset { worldWithS5 with cacheContent := sampleCSV } {} true).1.downloads = 1) ∧
    ((reset { worldWithS5 with cacheContent := sampleCSV } {} false).1.downloads = 0) ∧
    ((reset { worldWithS5 with cacheContent := sampleCSV } {} false).2.1.data
      = some sampleNormalized) := by
  have h := reset_download_policy_and_normalization
    { worldWithS5 with cacheContent := sampleCSV } {} false
  refine ⟨by decide, by decide, ?_⟩
  exact h.2.2.1 sampleNormalized (by decide)

end IdcIndex
